import Mathlib

/-!
Verification of the `thrift` Conan recipe (`recipes/thrift/all/conanfile.py`).

The recipe is a declarative build description: its lifecycle methods map an
option set and target settings to dependency requirements, build-tool
variables, packaging actions and consumer metadata.  We embed each of those
methods as a pure Lean function over explicit records for options, settings
and versions, and prove the stated properties about them.
-/

namespace ThriftConan

/-- Target operating systems distinguished by the recipe
(`self.settings.os` is compared against "Windows", "Linux", "FreeBSD"). -/
inductive OS where
  | Windows
  | Linux
  | FreeBSD
  | Macos
  | Other
deriving DecidableEq

/-- The settings the recipe consults: target OS, compiler family
(`is_msvc`), runtime linkage (`is_msvc_static_runtime`) and whether
`build_type == "Debug"`. -/
structure Settings where
  os : OS
  is_msvc : Bool
  is_msvc_static_runtime : Bool
  build_type_debug : Bool
deriving DecidableEq

/-- The recipe's option set.  `fPIC` is an `Option Bool` because
`config_options` / `configure` may delete it (`del` / `rm_safe`);
every other option is a plain boolean. -/
structure OptionSet where
  shared : Bool
  fPIC : Option Bool
  with_zlib : Bool
  with_libevent : Bool
  with_openssl : Bool
  with_c_glib : Bool
  with_cpp : Bool
  with_java : Bool
  with_python : Bool
  with_qt5 : Bool
  with_haskell : Bool
deriving DecidableEq

/-- Recipe versions relevant to the version-gated branches
(`Version(self.version) < "0.22.0"`, `>= "0.15.0"`); all versions of this
recipe are three-component. -/
structure Version where
  major : Nat
  minor : Nat
  patch : Nat
deriving DecidableEq

/-- Lexicographic strict order on versions, as the Conan `Version`
comparison behaves on three-component versions. -/
def Version.lt (a b : Version) : Bool :=
  Nat.blt a.major b.major ||
    (Nat.beq a.major b.major &&
      (Nat.blt a.minor b.minor ||
        (Nat.beq a.minor b.minor && Nat.blt a.patch b.patch)))

/-- `a ≤ b` on versions: strictly below or equal. -/
def Version.le (a b : Version) : Bool :=
  Version.lt a b || a == b

/-- `config_options`: on Windows the `fPIC` option is deleted. -/
def config_options (os : OS) (o : OptionSet) : OptionSet :=
  if os = OS.Windows then { o with fPIC := none } else o

/-- `configure`: when `shared` is true the `fPIC` option is removed
(`rm_safe`, so removing an already-absent option is a no-op). -/
def configure (o : OptionSet) : OptionSet :=
  if o.shared then { o with fPIC := none } else o

/-- C3: after option resolution (`config_options` then `configure`), the
`fPIC` option is absent whenever `shared = true`, on every platform; and on
Windows it is absent regardless of `shared`. -/
theorem C3_fpic_removed (os : OS) (o : OptionSet) :
    ((configure (config_options os o)).shared = true →
      (configure (config_options os o)).fPIC = none) ∧
    (os = OS.Windows → (configure (config_options os o)).fPIC = none) := by
  unfold configure config_options
  by_cases hw : os = OS.Windows <;> by_cases hs : o.shared = true <;>
    simp [hw, hs]

/-- Witness for C3 at a concrete input: Windows with `shared = true` and
`fPIC` initially present. -/
theorem C3_fpic_removed_witness :
    (configure (config_options OS.Windows
      { shared := true, fPIC := some true, with_zlib := true,
        with_libevent := true, with_openssl := true, with_c_glib := false,
        with_cpp := true, with_java := false, with_python := false,
        with_qt5 := false, with_haskell := false })).fPIC = none :=
  (C3_fpic_removed OS.Windows _).2 rfl

/-- Python's `str.startswith`, as a character-list prefix test:
`strStartswith s p` holds when `p` is a prefix of `s`. -/
def strStartswith (s p : String) : Bool :=
  p.toList.isPrefixOf s.toList

/-- Python's `str.upper` on the ASCII option names used by the recipe:
uppercase every character. -/
def strUpper (s : String) : String :=
  String.mk (s.toList.map Char.toUpper)

/-- The fixed order in which the recipe's option dictionary is declared and
iterated (`self.options.items()`); `fPIC` is skipped when it has been
removed. -/
def OptionSet.items (o : OptionSet) : List (String × Bool) :=
  [("shared", o.shared)] ++
    (match o.fPIC with
      | some b => [("fPIC", b)]
      | none => []) ++
    [("with_zlib", o.with_zlib),
     ("with_libevent", o.with_libevent),
     ("with_openssl", o.with_openssl),
     ("with_c_glib", o.with_c_glib),
     ("with_cpp", o.with_cpp),
     ("with_java", o.with_java),
     ("with_python", o.with_python),
     ("with_qt5", o.with_qt5),
     ("with_haskell", o.with_haskell)]

/-- `requirements`: `boost/1.85.0` is always required; the
`with_openssl`, `with_zlib`, `with_libevent` and `with_qt5` options each
gate one further requirement, in this order. -/
def requirements (o : OptionSet) : List String :=
  ["boost/1.85.0"] ++
    (if o.with_openssl then ["openssl/[>=1.1 <4]"] else []) ++
    (if o.with_zlib then ["zlib/[>=1.2.11 <2]"] else []) ++
    (if o.with_libevent then ["libevent/2.1.12"] else []) ++
    (if o.with_qt5 then ["qt/5.15.13"] else [])

/-- The names of the enabled `with_`-prefixed options of an option set. -/
def enabledWithOptions (o : OptionSet) : List String :=
  (o.items.filter (fun p => strStartswith p.1 "with_" && p.2)).map
    (fun p => p.1)

/-- C1 counterexample: with only `with_c_glib` enabled, `requirements`
declares the base dependency and nothing else, so the claimed
"one dependency per enabled optional `with_` feature" fails: one feature is
enabled yet only one (the base) dependency is declared. -/
theorem C1_counterexample :
    ¬ ((requirements
        { shared := false, fPIC := some true, with_zlib := false,
          with_libevent := false, with_openssl := false, with_c_glib := true,
          with_cpp := false, with_java := false, with_python := false,
          with_qt5 := false, with_haskell := false }).length =
      1 + (enabledWithOptions
        { shared := false, fPIC := some true, with_zlib := false,
          with_libevent := false, with_openssl := false, with_c_glib := true,
          with_cpp := false, with_java := false, with_python := false,
          with_qt5 := false, with_haskell := false }).length) := by
  decide

/-- C1 (amended): for every option combination, the declared dependencies
are exactly the base `boost` dependency plus one dependency per enabled
dependency-backed feature (`with_openssl`, `with_zlib`, `with_libevent`,
`with_qt5`): membership is characterised exactly, and the count is one plus
the number of enabled dependency-backed features; the remaining `with_`
options contribute nothing. -/
theorem C1_requirements_amended (o : OptionSet) :
    (∀ d : String, d ∈ requirements o ↔
      (d = "boost/1.85.0" ∨
        (o.with_openssl = true ∧ d = "openssl/[>=1.1 <4]") ∨
        (o.with_zlib = true ∧ d = "zlib/[>=1.2.11 <2]") ∨
        (o.with_libevent = true ∧ d = "libevent/2.1.12") ∨
        (o.with_qt5 = true ∧ d = "qt/5.15.13"))) ∧
    (requirements o).length =
      1 + ((if o.with_openssl then 1 else 0) + (if o.with_zlib then 1 else 0) +
        (if o.with_libevent then 1 else 0) + (if o.with_qt5 then 1 else 0)) := by
  obtain ⟨sh, fp, z, le, ssl, gl, cpp, j, py, qt, hs⟩ := o
  constructor
  · intro d
    cases ssl <;> cases z <;> cases le <;> cases qt <;>
      simp [requirements]
  · cases ssl <;> cases z <;> cases le <;> cases qt <;> simp [requirements]

/-- The library filename suffix computed at the start of `package_info`:
an MSVC runtime marker (`mt` for static runtime, `md` otherwise, absent for
non-MSVC compilers) followed by a debug marker `d`. -/
def libsuffix (s : Settings) : String :=
  (if s.is_msvc then (if s.is_msvc_static_runtime then "mt" else "md")
    else "") ++
  (if s.build_type_debug then "d" else "")

/-- C2: the library filename suffix is a pure function of
(compiler family, static-runtime flag, debug flag): for MSVC it is `mtd`,
`mt`, `md` or `mdd` according to runtime and build type; for non-MSVC it is
`d` in Debug and empty otherwise. -/
theorem C2_libsuffix (s : Settings) :
    libsuffix s =
      if s.is_msvc then
        (if s.is_msvc_static_runtime then
          (if s.build_type_debug then "mtd" else "mt")
        else
          (if s.build_type_debug then "mdd" else "md"))
      else
        (if s.build_type_debug then "d" else "") := by
  obtain ⟨os, msvc, mt, dbg⟩ := s
  cases msvc <;> cases mt <;> cases dbg <;> rfl

/-- The empty toolchain-variable dictionary. -/
def emptyDict {α : Type} : String → Option α := fun _ => none

/-- Assignment `d[k] = v` into a toolchain-variable dictionary. -/
def setEntry {α : Type} (d : String → Option α) (k : String) (v : α) :
    String → Option α :=
  fun q => if q = k then some v else d q

/-- The loop at the start of `generate`: iterate over `options.items()` and
forward every `with_`-prefixed option, uppercased, into `tc.variables`. -/
def forwardWithOptions :
    List (String × Bool) → (String → Option Bool) → (String → Option Bool)
  | [], d => d
  | (n, v) :: rest, d =>
      forwardWithOptions rest
        (if strStartswith n "with_" then setEntry d (strUpper n) v else d)

/-- The option-derived part of `tc.variables`: what the `generate` loop
produces from the option set alone. -/
def optionDerivedVariables (o : OptionSet) : String → Option Bool :=
  forwardWithOptions o.items emptyDict

/-- `tc.variables` as assembled by `generate`: the forwarded `with_`
options, the four fixed `BUILD_*` assignments, and `WITH_MT` only for
MSVC. -/
def generateVariables (s : Settings) (o : OptionSet) : String → Option Bool :=
  let d0 := optionDerivedVariables o
  let d1 := setEntry d0 "BUILD_TESTING" false
  let d2 := setEntry d1 "BUILD_COMPILER" true
  let d3 := setEntry d2 "BUILD_LIBRARIES" true
  let d4 := setEntry d3 "BUILD_TUTORIALS" false
  if s.is_msvc then setEntry d4 "WITH_MT" s.is_msvc_static_runtime else d4

/-- `tc.cache_variables` as assembled by `generate`: the CMP0074 policy
is always set, and `CMAKE_POLICY_VERSION_MINIMUM = "3.5"` only when the
recipe version is strictly below `0.22.0`. -/
def generateCacheVariables (v : Version) : String → Option String :=
  let d := setEntry emptyDict "CMAKE_POLICY_DEFAULT_CMP0074" "NEW"
  if Version.lt v ⟨0, 22, 0⟩ then
    setEntry d "CMAKE_POLICY_VERSION_MINIMUM" "3.5"
  else d

/-- C4: the cache variable `CMAKE_POLICY_VERSION_MINIMUM` is set to `"3.5"`
if and only if the recipe version is strictly below `0.22.0`, and for
versions at or above `0.22.0` it is not set at all. -/
theorem C4_policy_version_minimum (v : Version) :
    (generateCacheVariables v "CMAKE_POLICY_VERSION_MINIMUM" = some "3.5" ↔
      Version.lt v ⟨0, 22, 0⟩ = true) ∧
    (Version.lt v ⟨0, 22, 0⟩ = false →
      generateCacheVariables v "CMAKE_POLICY_VERSION_MINIMUM" = none) := by
  by_cases h : Version.lt v ⟨0, 22, 0⟩ = true <;>
    simp [generateCacheVariables, setEntry, emptyDict, h]

/-- Witness for C4 at concrete versions: `0.21.0` (below the threshold)
gets the variable, `0.22.0` (at the threshold) does not. -/
theorem C4_policy_version_minimum_witness :
    generateCacheVariables ⟨0, 21, 0⟩ "CMAKE_POLICY_VERSION_MINIMUM" =
        some "3.5" ∧
    generateCacheVariables ⟨0, 22, 0⟩ "CMAKE_POLICY_VERSION_MINIMUM" =
        none :=
  ⟨(C4_policy_version_minimum ⟨0, 21, 0⟩).1.mpr (by decide),
   (C4_policy_version_minimum ⟨0, 22, 0⟩).2 (by decide)⟩

/-- C5: `generate` forwards every option whose name starts with `with_` as
an uppercased boolean variable carrying that option's value; it always sets
`BUILD_TESTING` and `BUILD_TUTORIALS` to false and `BUILD_COMPILER` and
`BUILD_LIBRARIES` to true; and `WITH_MT` is set exactly when the compiler
family is MSVC, to whether the runtime is static. -/
theorem C5_generate_variables (s : Settings) (o : OptionSet) :
    (∀ n v, (n, v) ∈ o.items → strStartswith n "with_" = true →
      generateVariables s o (strUpper n) = some v) ∧
    generateVariables s o "BUILD_TESTING" = some false ∧
    generateVariables s o "BUILD_TUTORIALS" = some false ∧
    generateVariables s o "BUILD_COMPILER" = some true ∧
    generateVariables s o "BUILD_LIBRARIES" = some true ∧
    generateVariables s o "WITH_MT" =
      (if s.is_msvc then some s.is_msvc_static_runtime else none) := by
  obtain ⟨sh, fp, z, le, ssl, gl, cpp, j, py, qt, hs⟩ := o
  obtain ⟨os, msvc, mt, dbg⟩ := s
  refine ⟨?_, ?_, ?_, ?_, ?_, ?_⟩
  · intro n v hmem hpre
    cases fp <;> cases msvc <;> fin_cases hmem <;>
      first
        | exact absurd hpre (by decide)
        | rfl
  all_goals cases fp <;> cases msvc <;> rfl

/-- Witness for C5: on a concrete non-MSVC configuration with default
options, `with_zlib` is forwarded as `WITH_ZLIB = true`. -/
theorem C5_generate_variables_witness :
    generateVariables
      { os := OS.Linux, is_msvc := false, is_msvc_static_runtime := false,
        build_type_debug := false }
      { shared := false, fPIC := some true, with_zlib := true,
        with_libevent := true, with_openssl := true, with_c_glib := false,
        with_cpp := true, with_java := false, with_python := false,
        with_qt5 := false, with_haskell := false }
      (strUpper "with_zlib") = some true :=
  (C5_generate_variables _ _).1 "with_zlib" true (by decide) (by decide)

/-- Definedness of a dictionary after one assignment: the key just
assigned, or whatever was already defined. -/
theorem isSome_setEntry {α : Type} (d : String → Option α) (k q : String)
    (v : α) : ((setEntry d k v) q).isSome = (q == k || (d q).isSome) := by
  by_cases h : q = k <;> simp [setEntry, h]

/-- C10: `shared` and `fPIC` are never forwarded to the build tool: the
option-derived toolchain variables are defined exactly at the uppercased
`with_`-prefixed option names, for every option combination. -/
theorem C10_only_with_options_forwarded (o : OptionSet) :
    optionDerivedVariables o "SHARED" = none ∧
    optionDerivedVariables o "FPIC" = none ∧
    (∀ k, (optionDerivedVariables o k).isSome = true ↔
      k ∈ ["WITH_ZLIB", "WITH_LIBEVENT", "WITH_OPENSSL", "WITH_C_GLIB",
           "WITH_CPP", "WITH_JAVA", "WITH_PYTHON", "WITH_QT5",
           "WITH_HASKELL"]) := by
  obtain ⟨sh, fp, z, le, ssl, gl, cpp, j, py, qt, hs⟩ := o
  refine ⟨?_, ?_, ?_⟩
  · cases fp <;> rfl
  · cases fp <;> rfl
  · intro k
    cases fp <;>
      · simp only [optionDerivedVariables, OptionSet.items,
          forwardWithOptions, strStartswith, strUpper]
        norm_num
        simp [isSome_setEntry, emptyDict]
        tauto

/-- A consumer-metadata component as populated by `package_info`: its
library filenames, platform system libraries, and requirement edges. -/
structure Component where
  libs : List String
  system_libs : List String
  requires : List String
deriving DecidableEq

/-- `package_info`: the components declared for consumers, in declaration
order.  `libthrift` is always declared; `libthrift_z`, `libthrift_nb` and
`libthrift_qt5` are declared exactly when `with_zlib`, `with_libevent` and
`with_qt5` are enabled.  `libthrift` gets `shlwapi` on Windows for versions
at or above `0.15.0`, `m` and `pthread` on Linux or FreeBSD, and requires
`boost::headers` plus, when `with_openssl` is enabled, `openssl::openssl`. -/
def package_info (s : Settings) (v : Version) (o : OptionSet) :
    List (String × Component) :=
  [("libthrift",
    { libs := ["thrift" ++ libsuffix s],
      system_libs :=
        if s.os = OS.Windows then
          (if Version.le ⟨0, 15, 0⟩ v then ["shlwapi"] else [])
        else if s.os = OS.Linux ∨ s.os = OS.FreeBSD then ["m", "pthread"]
        else [],
      requires := ["boost::headers"] ++
        (if o.with_openssl then ["openssl::openssl"] else []) })] ++
  (if o.with_zlib then
    [("libthrift_z",
      { libs := ["thriftz" ++ libsuffix s], system_libs := [],
        requires := ["libthrift", "zlib::zlib"] })]
   else []) ++
  (if o.with_libevent then
    [("libthrift_nb",
      { libs := ["thriftnb" ++ libsuffix s], system_libs := [],
        requires := ["libthrift", "libevent::libevent"] })]
   else []) ++
  (if o.with_qt5 then
    [("libthrift_qt5",
      { libs := ["thriftqt5" ++ libsuffix s], system_libs := [],
        requires := ["libthrift", "qt::qtCore"] })]
   else [])

/-- Look a component up by name in the declared component list. -/
def lookupComponent (l : List (String × Component)) (k : String) :
    Option Component :=
  (l.find? (fun p => p.1 == k)).map (fun p => p.2)

/-- C6: each enabled optional feature's companion component requires the
base component `libthrift` plus the feature's own enabling dependency. -/
theorem C6_component_requires (s : Settings) (v : Version) (o : OptionSet) :
    (o.with_zlib = true →
      ∃ c, lookupComponent (package_info s v o) "libthrift_z" = some c ∧
        "libthrift" ∈ c.requires ∧ "zlib::zlib" ∈ c.requires) ∧
    (o.with_libevent = true →
      ∃ c, lookupComponent (package_info s v o) "libthrift_nb" = some c ∧
        "libthrift" ∈ c.requires ∧ "libevent::libevent" ∈ c.requires) ∧
    (o.with_qt5 = true →
      ∃ c, lookupComponent (package_info s v o) "libthrift_qt5" = some c ∧
        "libthrift" ∈ c.requires ∧ "qt::qtCore" ∈ c.requires) := by
  obtain ⟨sh, fp, z, le, ssl, gl, cpp, j, py, qt, hs⟩ := o
  refine ⟨fun hz => ?_, fun hle => ?_, fun hqt => ?_⟩ <;>
    simp_all [package_info, lookupComponent] <;>
    cases le <;> simp_all <;> cases z <;> simp_all

/-- Witness for C6 at a concrete input: all three features enabled on a
Linux release configuration with version `0.22.0`. -/
theorem C6_component_requires_witness :
    ∃ c, lookupComponent
      (package_info
        { os := OS.Linux, is_msvc := false, is_msvc_static_runtime := false,
          build_type_debug := false }
        ⟨0, 22, 0⟩
        { shared := false, fPIC := some true, with_zlib := true,
          with_libevent := true, with_openssl := true, with_c_glib := false,
          with_cpp := true, with_java := false, with_python := false,
          with_qt5 := true, with_haskell := false }) "libthrift_qt5" =
        some c ∧
      "libthrift" ∈ c.requires ∧ "qt::qtCore" ∈ c.requires :=
  (C6_component_requires _ _ _).2.2 rfl

/-- C8: the base component's system libraries are exactly `m` and
`pthread` on Linux or FreeBSD, exactly `shlwapi` on Windows when the
version is at least `0.15.0`, and none anywhere else. -/
theorem C8_system_libs (s : Settings) (v : Version) (o : OptionSet) :
    ∃ c, lookupComponent (package_info s v o) "libthrift" = some c ∧
      c.system_libs =
        (if s.os = OS.Linux ∨ s.os = OS.FreeBSD then ["m", "pthread"]
         else if s.os = OS.Windows ∧ Version.le ⟨0, 15, 0⟩ v = true then
           ["shlwapi"]
         else []) := by
  refine ⟨_, rfl, ?_⟩
  rcases s with ⟨os, msvc, mt, dbg⟩
  cases os <;> by_cases hv : Version.le ⟨0, 15, 0⟩ v = true <;> simp [hv]

/-- C9: `with_openssl` creates no companion component: the declared
component names are `libthrift` plus exactly one companion per enabled
feature among `with_zlib`, `with_libevent`, `with_qt5`; and
`openssl::openssl` appears in `libthrift`'s own requirement list exactly
when `with_openssl` is enabled. -/
theorem C9_openssl_no_component (s : Settings) (v : Version)
    (o : OptionSet) :
    (package_info s v o).map (fun p => p.1) =
      "libthrift" ::
        ((if o.with_zlib then ["libthrift_z"] else []) ++
         (if o.with_libevent then ["libthrift_nb"] else []) ++
         (if o.with_qt5 then ["libthrift_qt5"] else [])) ∧
    (∃ c, lookupComponent (package_info s v o) "libthrift" = some c ∧
      ("openssl::openssl" ∈ c.requires ↔ o.with_openssl = true)) := by
  obtain ⟨sh, fp, z, le, ssl, gl, cpp, j, py, qt, hs⟩ := o
  constructor
  · cases z <;> cases le <;> cases qt <;> simp [package_info]
  · refine ⟨_, rfl, ?_⟩
    cases ssl <;> simp

/-- `rmdir(self, d)` on a package tree, where the tree is the list of its
paths (each path a list of segments below the package folder): deletes the
directory `d` and everything under it. -/
def rmdirTree (tree : List (List String)) (dir : List String) :
    List (List String) :=
  tree.filter (fun p => ! dir.isPrefixOf p)

/-- The cleanup tail of `package`: after the license copy, the build-tool
install and the generated-header copy have produced the tree `installed`,
the phase removes `lib/cmake` and then `lib/pkgconfig`.  `package` reads no
option, so the option set is carried only to state the claim over it. -/
def packageCleanup (_o : OptionSet) (installed : List (List String)) :
    List (List String) :=
  rmdirTree (rmdirTree installed ["lib", "cmake"]) ["lib", "pkgconfig"]

/-- C7: for every option combination and every installed tree, the final
package tree contains no path under `lib/cmake` or `lib/pkgconfig`, and
contains every other installed path unchanged: exactly those two
directories are removed. -/
theorem C7_package_cleanup (o : OptionSet) (installed : List (List String))
    (p : List String) :
    p ∈ packageCleanup o installed ↔
      p ∈ installed ∧ ["lib", "cmake"].isPrefixOf p = false ∧
        ["lib", "pkgconfig"].isPrefixOf p = false := by
  simp only [packageCleanup, rmdirTree, List.mem_filter,
    Bool.not_eq_true', and_assoc]

end ThriftConan
